import Mathlib

/-!
Verification of the DocBot document-chat application (app.py, utils/loader.py).

The Streamlit session state and its handlers are shallowly embedded:
- the session state (chat_history, query_engine, uploaded_filenames) together
  with the on-disk "data" folder becomes the structure `AppState`;
- the sidebar upload handler (app.py lines 42-55), the Rebuild Index handler
  (lines 57-61), the Clear All and Reset handler (lines 64-68), and the chat
  tab handler (lines 87-110) become the functions `upload`, `rebuildIndex`,
  `reset` and `ask`;
- the document loader (utils/loader.py) becomes `load_all_documents`, with the
  external PDF and DOCX readers as function parameters;
- the external LLM query (query_engine.query) is a function parameter of
  `ask`; the index built by VectorStoreIndex.from_documents is modelled by the
  list of documents it was built from;
- wall-clock instants are naturals (seconds); strftime "%H:%M:%S" is `fmtHMS`.
-/

namespace DocBot

/-- A file stored in the on-disk "data" folder: its filename and its bytes
(modelled as a string). -/
structure Entry where
  name : String
  content : String
deriving DecidableEq, Repr

/-- A normalized document, as produced by utils/loader.py. The llama-index
Document carries text plus optional metadata; the loader passes only
text=... in the .txt branch, so the source field is an Option. -/
structure Document where
  text : String
  source : Option String
deriving DecidableEq, Repr

/-- One chat transcript entry, as the dicts appended in app.py lines 91-95
and 102-106: keys role, content, time. -/
structure ChatMessage where
  role : String
  content : String
  time : String
deriving DecidableEq, Repr

/-- The session state of app.py (lines 28-35) plus the on-disk data folder
that the upload handler writes into and the loader reads from. -/
structure AppState where
  chat_history : List ChatMessage
  query_engine : Option (List Document)
  uploaded_filenames : List String
  dataDir : List Entry
deriving DecidableEq, Repr

/-- Writing one uploaded file to the data folder (app.py lines 46-49):
open(path, "wb") creates the file or overwrites an existing file of the
same name. -/
def writeFile (dir : List Entry) (e : Entry) : List Entry :=
  if dir.any (fun d => d.name = e.name) then
    dir.map (fun d => if d.name = e.name then e else d)
  else
    dir ++ [e]

/-- Python str.endswith: the candidate suffix is a suffix of the string,
stated on the character lists so that it evaluates by decide. -/
def endswith (s suffix : String) : Bool := suffix.data.isSuffixOf s.data

/-- The sidebar upload handler, app.py lines 42-55: when the uploader holds
files, write each to the data folder and collect the names; if the name list
differs from uploaded_filenames, record it, clear the chat history and drop
the query engine. -/
def upload (files : List Entry) (s : AppState) : AppState :=
  if files = [] then s
  else
    let dir := files.foldl writeFile s.dataDir
    let new_files := files.map Entry.name
    if new_files ≠ s.uploaded_filenames then
      { chat_history := [], query_engine := none,
        uploaded_filenames := new_files, dataDir := dir }
    else
      { s with dataDir := dir }

/-- utils/loader.py load_all_documents: iterate over the folder, dispatch on
the filename suffix; .pdf and .docx delegate to external readers (parameters
pdfR and docxR, applied to the stored path contents), .txt wraps the file
text in a Document with no further metadata, anything else is skipped. The
loop accumulates into the documents list. -/
def load_all_documents (pdfR docxR : String → String → List Document)
    (dir : List Entry) : List Document :=
  dir.foldl (fun documents e =>
    if endswith e.name ".pdf" then documents ++ pdfR e.name e.content
    else if endswith e.name ".docx" then documents ++ docxR e.name e.content
    else if endswith e.name ".txt" then
      documents ++ [{ text := e.content, source := none }]
    else documents) []

/-- The Rebuild Index handler, app.py lines 57-61: load every document from
the data folder and install a query engine over the resulting index. The
index is modelled by the document list it was built from. -/
def rebuildIndex (pdfR docxR : String → String → List Document)
    (s : AppState) : AppState :=
  { s with query_engine := some (load_all_documents pdfR docxR s.dataDir) }

/-- The Clear All and Reset handler, app.py lines 64-68: clear the chat
history, drop the query engine, empty the recorded filename list. Nothing
is deleted from the data folder. -/
def reset (s : AppState) : AppState :=
  { chat_history := [], query_engine := none,
    uploaded_filenames := [], dataDir := s.dataDir }

/-- strftime "%H:%M:%S" applied to an instant measured in seconds. -/
def pad2 (n : Nat) : String :=
  if n < 10 then "0" ++ toString n else toString n

/-- Renders an instant (seconds) as the HH:MM:SS wall-clock string stored in
the time field of a chat message (app.py lines 90 and 101). -/
def fmtHMS (t : Nat) : String :=
  pad2 (t / 3600 % 24) ++ ":" ++ pad2 (t % 3600 / 60) ++ ":" ++ pad2 (t % 60)

/-- Result of one pass through the chat tab (app.py lines 87-110): the state
afterwards, whether query_engine.query was invoked, and whether the
rebuild-the-index-first warning of line 110 was displayed. -/
structure AskResult where
  state : AppState
  queried : Bool
  warned : Bool
deriving Repr

/-- The chat tab handler, app.py lines 87-110. oracle is the external
query_engine.query call; t1 and t2 are the instants at which the two
datetime.now() calls (lines 90 and 101) read the clock. With no engine the
tab only shows the warning; with an engine and a non-empty prompt it appends
the user message, queries, and appends the answer with role DocBot. -/
def ask (oracle : String → List Document → String) (t1 t2 : Nat)
    (prompt : String) (s : AppState) : AskResult :=
  match s.query_engine with
  | none => { state := s, queried := false, warned := true }
  | some idx =>
    if prompt = "" then { state := s, queried := false, warned := false }
    else
      { state := { s with chat_history := s.chat_history ++
          [{ role := "user", content := prompt, time := fmtHMS t1 },
           { role := "DocBot", content := oracle prompt idx, time := fmtHMS t2 }] },
        queried := true, warned := false }

/-- The fragment of JSON that the chat export uses: strings, arrays and
objects with ordered fields, as produced by json.dumps and decoded by
json.loads. The external json library serializes this tree to text and
parses it back losslessly, so the round trip is stated on the tree. -/
inductive Json where
  | str (s : String)
  | arr (elems : List Json)
  | obj (fields : List (String × Json))

/-- One chat message as the JSON object json.dumps produces from the Python
dict: keys in insertion order role, content, time. -/
def messageToJson (m : ChatMessage) : Json :=
  .obj [("role", .str m.role), ("content", .str m.content), ("time", .str m.time)]

/-- The JSON export handler, app.py line 173: json.dumps(chat_history),
an array of the message objects in transcript order. -/
def exportJson (h : List ChatMessage) : Json :=
  .arr (h.map messageToJson)

/-- Decoding one exported object back into a chat message. -/
def jsonToMessage : Json → Option ChatMessage
  | .obj [("role", .str r), ("content", .str c), ("time", .str t)] =>
      some { role := r, content := c, time := t }
  | _ => none

/-- Decoding a list of exported objects, failing if any element fails. -/
def parseMessages : List Json → Option (List ChatMessage)
  | [] => some []
  | j :: rest =>
    match jsonToMessage j, parseMessages rest with
    | some m, some ms => some (m :: ms)
    | _, _ => none

/-- Parsing the exported JSON back into a transcript. -/
def parseTranscript : Json → Option (List ChatMessage)
  | .arr elems => parseMessages elems
  | _ => none

/-- Python str.capitalize: the first character is uppercased and every
remaining character is lowercased. -/
def pyCapitalize (s : String) : String :=
  match s.data with
  | [] => ""
  | c :: cs => String.mk (c.toUpper :: cs.map Char.toLower)

/-- One line group of the plain-text export, app.py line 180:
role capitalized, the time in brackets, a colon, a newline, the content. -/
def renderMessageTxt (m : ChatMessage) : String :=
  pyCapitalize m.role ++ " [" ++ m.time ++ "]:\n" ++ m.content

/-- The plain-text export handler, app.py line 180: the rendered messages
joined by a blank line. -/
def exportTxt (h : List ChatMessage) : String :=
  String.intercalate "\n\n" (h.map renderMessageTxt)

/-- Capitalizing only the first letter, as the spec words it: the first
character is uppercased and the rest of the string is kept unchanged. -/
def specCapitalizeFirst (s : String) : String :=
  match s.data with
  | [] => ""
  | c :: cs => String.mk (c.toUpper :: cs)

/-- The plain-text rendering of one message as the spec words it: the role
with its first letter capitalized, the timestamp in brackets, a colon, a
newline, the content. -/
def renderMessageTxtSpec (m : ChatMessage) : String :=
  specCapitalizeFirst m.role ++ " [" ++ m.time ++ "]:\n" ++ m.content

/-- The plain-text export as the spec words it: rendered messages in
transcript order, consecutive messages separated by exactly one blank
line. -/
def exportTxtSpec : List ChatMessage → String
  | [] => ""
  | [m] => renderMessageTxtSpec m
  | m :: rest => renderMessageTxtSpec m ++ "\n\n" ++ exportTxtSpec rest

/-- The rendering of one message under the amended wording: the role passed
through Python str.capitalize (first character uppercased, the remaining
characters lowercased), the timestamp in brackets, a colon, a newline, the
content. -/
def renderMessageTxtAmended (m : ChatMessage) : String :=
  pyCapitalize m.role ++ " [" ++ m.time ++ "]:\n" ++ m.content

/-- The plain-text export under the amended wording: amended renderings in
transcript order, consecutive messages separated by exactly one blank
line. -/
def exportTxtAmended : List ChatMessage → String
  | [] => ""
  | [m] => renderMessageTxtAmended m
  | m :: rest => renderMessageTxtAmended m ++ "\n\n" ++ exportTxtAmended rest

/-- The loader contract as the spec words it, written as a direct recursion:
each entry contributes the PDF reader output, the DOCX reader output, one
Document holding the file text, or nothing, by extension. -/
def specLoad (pdfR docxR : String → String → List Document) :
    List Entry → List Document
  | [] => []
  | e :: rest =>
    (if endswith e.name ".pdf" then pdfR e.name e.content
     else if endswith e.name ".docx" then docxR e.name e.content
     else if endswith e.name ".txt" then [{ text := e.content, source := none }]
     else []) ++ specLoad pdfR docxR rest

/-- A session-level operation that mutates state without building an index:
an upload event or the reset button. Used to show that no sequence of these
ever removes a file from the data folder. -/
inductive SessionOp where
  | upload (files : List Entry)
  | reset
deriving Repr

/-- Applying a sequence of session operations in order. -/
def applyOps : List SessionOp → AppState → AppState
  | [], s => s
  | op :: rest, s =>
    applyOps rest (match op with
      | .upload files => upload files s
      | .reset => reset s)

/-! Concrete values used by witnesses and counterexamples. -/

/-- A sample document, as an index could contain. -/
def sampleDoc : Document := { text := "x", source := none }

/-- A sample chat message already in the transcript. -/
def sampleMsg : ChatMessage := { role := "user", content := "hi", time := "01:02:03" }

/-- A sample stored file. -/
def sampleEntryA : Entry := { name := "a.txt", content := "x" }

/-- A second sample stored file. -/
def sampleEntryB : Entry := { name := "b.txt", content := "y" }

/-- A third sample stored file, not yet uploaded in the sample states. -/
def sampleEntryC : Entry := { name := "c.txt", content := "z" }

/-- A session in the Ready state: an index is built, the transcript holds one
message, two files are recorded. -/
def sampleReady : AppState :=
  { chat_history := [sampleMsg], query_engine := some [sampleDoc],
    uploaded_filenames := ["a.txt", "b.txt"], dataDir := [sampleEntryA, sampleEntryB] }

/-- A session with files uploaded but no index built. -/
def sampleUnready : AppState :=
  { chat_history := [sampleMsg], query_engine := none,
    uploaded_filenames := ["a.txt"], dataDir := [sampleEntryA] }

/-- A sample external query function. -/
def sampleOracle : String → List Document → String := fun _ _ => "the answer"

/-- A sample external reader, usable for both the PDF and the DOCX slot. -/
def sampleOracleReaders : String → String → List Document :=
  fun name content => [{ text := content, source := some name }]

/-- A sample assistant-side message as the chat handler records it. -/
def sampleBotMsg : ChatMessage := { role := "DocBot", content := "hi", time := "12:00:00" }

/-! Helper lemmas. -/

/-- The accumulator of String.intercalate.go distributes over a prefix. -/
theorem intercalate_go_append (s : String) : ∀ (t : List String) (p b : String),
    String.intercalate.go (p ++ b) s t = p ++ String.intercalate.go b s t := by
  intro t
  induction t with
  | nil => intro p b; rfl
  | cons c t ih =>
    intro p b
    show String.intercalate.go (p ++ b ++ s ++ c) s t
      = p ++ String.intercalate.go (b ++ s ++ c) s t
    rw [String.append_assoc, String.append_assoc, ih, String.append_assoc b s c]

/-- String.intercalate on a cons with a non-empty tail splits off the head
and one separator. -/
theorem intercalate_cons_ne_nil (s a : String) (l : List String) (h : l ≠ []) :
    String.intercalate s (a :: l) = a ++ s ++ String.intercalate s l := by
  match l with
  | [] => exact absurd rfl h
  | b :: t =>
    show String.intercalate.go a s (b :: t) = a ++ s ++ String.intercalate.go b s t
    show String.intercalate.go (a ++ s ++ b) s t = _
    rw [← intercalate_go_append s t (a ++ s) b]

/-- The loader loop with an arbitrary accumulator equals the accumulator
followed by the per-entry dispatch of the remaining entries. -/
theorem load_all_documents_acc (pdfR docxR : String → String → List Document) :
    ∀ (dir : List Entry) (acc : List Document),
      dir.foldl (fun documents e =>
        if endswith e.name ".pdf" then documents ++ pdfR e.name e.content
        else if endswith e.name ".docx" then documents ++ docxR e.name e.content
        else if endswith e.name ".txt" then
          documents ++ [{ text := e.content, source := none }]
        else documents) acc = acc ++ specLoad pdfR docxR dir := by
  intro dir
  induction dir with
  | nil => intro acc; simp [specLoad]
  | cons e rest ih =>
    intro acc
    simp only [List.foldl_cons, specLoad]
    by_cases h1 : endswith e.name ".pdf"
    · simp [h1, ih, List.append_assoc]
    · by_cases h2 : endswith e.name ".docx"
      · simp [h1, h2, ih, List.append_assoc]
      · by_cases h3 : endswith e.name ".txt"
        · simp [h1, h2, h3, ih, List.append_assoc]
        · simp [h1, h2, h3, ih]

/-- The loader equals its per-entry dispatch form. -/
theorem load_all_documents_eq (pdfR docxR : String → String → List Document)
    (dir : List Entry) :
    load_all_documents pdfR docxR dir = specLoad pdfR docxR dir := by
  have h := load_all_documents_acc pdfR docxR dir []
  simpa [load_all_documents] using h

/-- Writing a file never removes a stored filename: any name present before
is present afterwards, with some content. -/
theorem writeFile_keeps_name (dir : List Entry) (e : Entry) (n c : String)
    (h : Entry.mk n c ∈ dir) : ∃ c2, Entry.mk n c2 ∈ writeFile dir e := by
  unfold writeFile
  by_cases hany : dir.any (fun d => d.name = e.name)
  · by_cases hn : n = e.name
    · refine ⟨e.content, ?_⟩
      have hmem := List.mem_map_of_mem (fun d => if d.name = e.name then e else d) h
      simpa [hany, hn] using hmem
    · refine ⟨c, ?_⟩
      have hmem := List.mem_map_of_mem (fun d => if d.name = e.name then e else d) h
      simpa [hany, hn] using hmem
  · exact ⟨c, by simp only [hany, if_false]; exact List.mem_append_left _ h⟩

/-- Writing a batch of files keeps every stored filename present. -/
theorem foldl_writeFile_keeps_name (files : List Entry) :
    ∀ (dir : List Entry) (n c : String), Entry.mk n c ∈ dir →
      ∃ c2, Entry.mk n c2 ∈ files.foldl writeFile dir := by
  induction files with
  | nil => exact fun dir n c h => ⟨c, h⟩
  | cons f rest ih =>
    intro dir n c h
    obtain ⟨c2, h2⟩ := writeFile_keeps_name dir f n c h
    exact ih (writeFile dir f) n c2 h2

/-- The upload handler keeps every stored filename present. -/
theorem upload_keeps_name (files : List Entry) (s : AppState) (n c : String)
    (h : Entry.mk n c ∈ s.dataDir) :
    ∃ c2, Entry.mk n c2 ∈ (upload files s).dataDir := by
  unfold upload
  by_cases hf : files = []
  · exact ⟨c, by simpa [hf] using h⟩
  · by_cases hd : files.map Entry.name ≠ s.uploaded_filenames
    · simpa [hf, hd] using foldl_writeFile_keeps_name files s.dataDir n c h
    · simpa [hf, hd] using foldl_writeFile_keeps_name files s.dataDir n c h

/-- No sequence of uploads and resets removes a stored filename. -/
theorem applyOps_keeps_name (ops : List SessionOp) :
    ∀ (s : AppState) (n c : String), Entry.mk n c ∈ s.dataDir →
      ∃ c2, Entry.mk n c2 ∈ (applyOps ops s).dataDir := by
  induction ops with
  | nil => exact fun s n c h => ⟨c, h⟩
  | cons op rest ih =>
    intro s n c h
    cases op with
    | upload files =>
      obtain ⟨c2, h2⟩ := upload_keeps_name files s n c h
      exact ih (upload files s) n c2 h2
    | reset => exact ih (reset s) n c h

/-- A stored .txt file always contributes its Document to the dispatch form
of the loader output. -/
theorem txt_mem_specLoad (pdfR docxR : String → String → List Document)
    (n c : String) (ht : endswith n ".txt" = true)
    (hp : endswith n ".pdf" = false) (hd : endswith n ".docx" = false) :
    ∀ dir : List Entry, Entry.mk n c ∈ dir →
      Document.mk c none ∈ specLoad pdfR docxR dir := by
  intro dir
  induction dir with
  | nil => intro h; exact absurd h (List.not_mem_nil _)
  | cons e rest ih =>
    intro h
    rcases List.mem_cons.mp h with he | hrest
    · rw [← he]
      simp [specLoad, ht, hp, hd]
    · exact List.mem_append_right _ (ih hrest)

/-! Claims. -/

/-- C1 counterexample: on a successful ask the two appended messages have
roles user and DocBot, and DocBot is not the role assistant that the claim
states for the second message. -/
theorem ask_appends_assistant_counterexample :
    (ask sampleOracle 3 4 "q" sampleReady).state.chat_history.map ChatMessage.role
      = ["user", "user", "DocBot"] ∧ "DocBot" ≠ "assistant" := by
  exact ⟨by decide, by decide⟩

/-- C1 (amended): a successful ask (index present, non-empty prompt, the two
datetime.now readings t1 and t2 taken inside the call window) appends exactly
two messages, first role user with content q and the formatted first reading,
then role DocBot (not assistant) with the returned answer text and the
formatted second reading, both readings lying between call start and
completion. -/
theorem ask_success_appends_two_messages
    (oracle : String → List Document → String) (tstart t1 t2 tend : Nat)
    (h1 : tstart ≤ t1) (h12 : t1 ≤ t2) (h2 : t2 ≤ tend)
    (prompt : String) (hp : prompt ≠ "") (s : AppState) (idx : List Document)
    (he : s.query_engine = some idx) :
    (ask oracle t1 t2 prompt s).state.chat_history =
      s.chat_history ++
        [{ role := "user", content := prompt, time := fmtHMS t1 },
         { role := "DocBot", content := oracle prompt idx, time := fmtHMS t2 }] ∧
    tstart ≤ t1 ∧ t1 ≤ t2 ∧ t2 ≤ tend := by
  refine ⟨?_, h1, h12, h2⟩
  simp [ask, he, hp]

/-- C1 witness: the amended statement at a concrete Ready state, prompt and
clock readings. -/
theorem ask_success_appends_two_messages_witness :
    (2 ≤ 3 ∧ 3 ≤ 4 ∧ 4 ≤ 5 ∧ ("hello" : String) ≠ ""
      ∧ sampleReady.query_engine = some [sampleDoc]) ∧
    ((ask sampleOracle 3 4 "hello" sampleReady).state.chat_history =
      sampleReady.chat_history ++
        [{ role := "user", content := "hello", time := fmtHMS 3 },
         { role := "DocBot", content := sampleOracle "hello" [sampleDoc],
           time := fmtHMS 4 }] ∧
      2 ≤ 3 ∧ 3 ≤ 4 ∧ 4 ≤ 5) :=
  ⟨⟨by decide, by decide, by decide, by decide, rfl⟩,
    ask_success_appends_two_messages sampleOracle 2 3 4 5 (by decide) (by decide)
      (by decide) "hello" (by decide) sampleReady [sampleDoc] rfl⟩

/-- C2 counterexample: re-uploading the same set of filenames in a different
order is detected as a change, because the handler compares name lists, so
the transcript is cleared and the index dropped. -/
theorem upload_same_set_clears_counterexample :
    ([sampleEntryB, sampleEntryA].map Entry.name).toFinset
        = sampleReady.uploaded_filenames.toFinset ∧
    sampleReady.chat_history ≠ [] ∧
    sampleReady.query_engine ≠ none ∧
    (upload [sampleEntryB, sampleEntryA] sampleReady).chat_history = [] ∧
    (upload [sampleEntryB, sampleEntryA] sampleReady).query_engine = none := by
  exact ⟨by decide, by decide, by decide, by decide, by decide⟩

/-- C2 (amended): re-uploading the same sequence of filenames (equal as
lists, which is how the handler compares them) never clears the transcript,
never drops the index and leaves the recorded filename list unchanged. -/
theorem upload_same_name_list_noop (files : List Entry) (s : AppState)
    (hne : files ≠ []) (hsame : files.map Entry.name = s.uploaded_filenames) :
    (upload files s).chat_history = s.chat_history ∧
    (upload files s).query_engine = s.query_engine ∧
    (upload files s).uploaded_filenames = s.uploaded_filenames := by
  unfold upload
  simp [hne, hsame]

/-- C2 witness: the amended statement at a concrete Ready state re-uploading
the identical filename sequence. -/
theorem upload_same_name_list_noop_witness :
    (([sampleEntryA, sampleEntryB] : List Entry) ≠ [] ∧
      [sampleEntryA, sampleEntryB].map Entry.name
        = sampleReady.uploaded_filenames) ∧
    ((upload [sampleEntryA, sampleEntryB] sampleReady).chat_history
        = sampleReady.chat_history ∧
      (upload [sampleEntryA, sampleEntryB] sampleReady).query_engine
        = sampleReady.query_engine ∧
      (upload [sampleEntryA, sampleEntryB] sampleReady).uploaded_filenames
        = sampleReady.uploaded_filenames) :=
  ⟨⟨by decide, by decide⟩,
    upload_same_name_list_noop [sampleEntryA, sampleEntryB] sampleReady
      (by decide) (by decide)⟩

/-- C3: uploading a filename set different from the recorded one drops the
index and clears the transcript, and afterwards any ask is refused: the
state is unchanged and no external query is made, until rebuildIndex. -/
theorem upload_different_set_invalidates (files : List Entry) (s : AppState)
    (oracle : String → List Document → String) (t1 t2 : Nat) (q : String)
    (hne : files ≠ [])
    (hdiff : (files.map Entry.name).toFinset ≠ s.uploaded_filenames.toFinset) :
    (upload files s).query_engine = none ∧
    (upload files s).chat_history = [] ∧
    (ask oracle t1 t2 q (upload files s)).state = upload files s ∧
    (ask oracle t1 t2 q (upload files s)).queried = false := by
  have hlist : files.map Entry.name ≠ s.uploaded_filenames := by
    intro hEq
    exact hdiff (by rw [hEq])
  have hup : (upload files s).query_engine = none
      ∧ (upload files s).chat_history = [] := by
    unfold upload
    simp [hne, hlist]
  exact ⟨hup.1, hup.2, by simp [ask, hup.1], by simp [ask, hup.1]⟩

/-- C3 witness: the statement at a concrete Ready state receiving a genuinely
different filename set. -/
theorem upload_different_set_invalidates_witness :
    (([sampleEntryC] : List Entry) ≠ [] ∧
      ([sampleEntryC].map Entry.name).toFinset
        ≠ sampleReady.uploaded_filenames.toFinset) ∧
    ((upload [sampleEntryC] sampleReady).query_engine = none ∧
      (upload [sampleEntryC] sampleReady).chat_history = [] ∧
      (ask sampleOracle 7 8 "q" (upload [sampleEntryC] sampleReady)).state
        = upload [sampleEntryC] sampleReady ∧
      (ask sampleOracle 7 8 "q" (upload [sampleEntryC] sampleReady)).queried
        = false) :=
  ⟨⟨by decide, by decide⟩,
    upload_different_set_invalidates [sampleEntryC] sampleReady sampleOracle
      7 8 "q" (by decide) (by decide)⟩

/-- C4: with no index present, ask is a guarded no-op for every input: the
state is untouched, no external query is made, and the warning telling the
user to rebuild the index is displayed. -/
theorem ask_not_ready_noop (oracle : String → List Document → String)
    (t1 t2 : Nat) (prompt : String) (s : AppState)
    (h : s.query_engine = none) :
    (ask oracle t1 t2 prompt s).state = s ∧
    (ask oracle t1 t2 prompt s).queried = false ∧
    (ask oracle t1 t2 prompt s).warned = true := by
  simp [ask, h]

/-- C4 witness: the statement at a concrete session without an index. -/
theorem ask_not_ready_noop_witness :
    sampleUnready.query_engine = none ∧
    ((ask sampleOracle 3 4 "hello" sampleUnready).state = sampleUnready ∧
      (ask sampleOracle 3 4 "hello" sampleUnready).queried = false ∧
      (ask sampleOracle 3 4 "hello" sampleUnready).warned = true) :=
  ⟨rfl, ask_not_ready_noop sampleOracle 3 4 "hello" sampleUnready rfl⟩

/-- C5: reset, from any state, empties the transcript, drops the index and
empties the recorded uploaded-file set, unconditionally. -/
theorem reset_yields_NoFiles (s : AppState) :
    (reset s).chat_history = [] ∧
    (reset s).query_engine = none ∧
    (reset s).uploaded_filenames = [] :=
  ⟨rfl, rfl, rfl⟩

/-- C6: exporting the transcript as JSON and parsing it back yields the same
sequence of role, content, time records in the same order. -/
theorem export_json_roundtrip (h : List ChatMessage) :
    parseTranscript (exportJson h) = some h := by
  have hmap : ∀ l : List ChatMessage,
      parseMessages (l.map messageToJson) = some l := by
    intro l
    induction l with
    | nil => rfl
    | cons m t ih => simp [parseMessages, messageToJson, jsonToMessage, ih]
  simpa [parseTranscript, exportJson] using hmap h

/-- C7 counterexample: the assistant role DocBot is rendered Docbot by the
export (Python capitalize lowercases the rest of the word), not DocBot as
first-letter capitalization would produce. -/
theorem export_txt_capitalize_counterexample :
    exportTxt [sampleBotMsg] = "Docbot [12:00:00]:\nhi" ∧
    exportTxtSpec [sampleBotMsg] = "DocBot [12:00:00]:\nhi" ∧
    exportTxt [sampleBotMsg] ≠ exportTxtSpec [sampleBotMsg] := by
  exact ⟨by decide, by decide, by decide⟩

/-- C7 (amended): the plain-text export renders each message as the role
passed through Python str.capitalize (first character uppercased, remaining
characters lowercased), then the timestamp in square brackets, a colon, a
newline and the content, consecutive messages separated by exactly one blank
line, in transcript order. -/
theorem export_txt_renders_messages (h : List ChatMessage) :
    exportTxt h = exportTxtAmended h := by
  induction h with
  | nil => rfl
  | cons m t ih =>
    cases t with
    | nil => rfl
    | cons r t2 =>
      have hne : List.map renderMessageTxt (r :: t2) ≠ [] := by simp
      calc exportTxt (m :: r :: t2)
          = renderMessageTxt m ++ "\n\n" ++ exportTxt (r :: t2) := by
            simpa [exportTxt] using intercalate_cons_ne_nil "\n\n"
              (renderMessageTxt m) (List.map renderMessageTxt (r :: t2)) hne
        _ = renderMessageTxtAmended m ++ "\n\n" ++ exportTxtAmended (r :: t2) := by
            rw [ih]; rfl
        _ = exportTxtAmended (m :: r :: t2) := rfl

/-- C8: the loader dispatches every folder entry by extension: .pdf entries
contribute the PDF reader output, .docx entries the DOCX reader output, each
.txt entry exactly one Document holding its text, and entries with any other
extension contribute nothing. -/
theorem load_all_documents_dispatch (pdfR docxR : String → String → List Document)
    (dir : List Entry) :
    load_all_documents pdfR docxR dir = specLoad pdfR docxR dir :=
  load_all_documents_eq pdfR docxR dir

/-- C9 counterexample: the Document built from a .txt file carries no source
metadata at all, so it does not record which file it came from. -/
theorem txt_document_no_source_counterexample :
    load_all_documents (fun _ _ => []) (fun _ _ => []) [sampleEntryA]
      = [{ text := "x", source := none }] ∧
    (load_all_documents (fun _ _ => []) (fun _ _ => []) [sampleEntryA]).map
        Document.source = [none] ∧
    ([none] : List (Option String)) ≠ [some "a.txt"] := by
  exact ⟨by decide, by decide, by decide⟩

/-- C9 (amended): every Document the loader creates from a .txt file holds
exactly the file text and no source metadata; source metadata, if any, can
only come from the external PDF and DOCX readers. -/
theorem txt_documents_have_no_source (pdfR docxR : String → String → List Document)
    (dir : List Entry)
    (h : ∀ e ∈ dir, endswith e.name ".txt" = true ∧
      endswith e.name ".pdf" = false ∧ endswith e.name ".docx" = false) :
    load_all_documents pdfR docxR dir
      = dir.map (fun e => { text := e.content, source := none }) := by
  rw [load_all_documents_eq]
  induction dir with
  | nil => rfl
  | cons e rest ih =>
    obtain ⟨ht, hp, hd⟩ := h e (List.mem_cons_self e rest)
    have hrest := ih fun x hx => h x (List.mem_cons_of_mem e hx)
    simp [specLoad, ht, hp, hd, hrest]

/-- C9 witness: the amended statement at a concrete folder of two .txt
files. -/
theorem txt_documents_have_no_source_witness :
    (∀ e ∈ ([sampleEntryA, sampleEntryB] : List Entry),
      endswith e.name ".txt" = true ∧ endswith e.name ".pdf" = false ∧
      endswith e.name ".docx" = false) ∧
    load_all_documents sampleOracleReaders sampleOracleReaders
        [sampleEntryA, sampleEntryB]
      = [sampleEntryA, sampleEntryB].map
          (fun e => { text := e.content, source := none }) :=
  ⟨by decide,
    txt_documents_have_no_source sampleOracleReaders sampleOracleReaders
      [sampleEntryA, sampleEntryB] (by decide)⟩

/-- C10: no sequence of uploads and resets ever removes a file from the data
folder, a later rebuild builds its index from the whole folder, and a
persisted .txt file therefore contributes its Document to every later
rebuilt index, whether or not its name is still in the recorded set. -/
theorem rebuild_includes_persisted_files
    (pdfR docxR : String → String → List Document) (ops : List SessionOp)
    (s : AppState) (n c : String) (h : Entry.mk n c ∈ s.dataDir) :
    ∃ c2, Entry.mk n c2 ∈ (applyOps ops s).dataDir ∧
      (rebuildIndex pdfR docxR (applyOps ops s)).query_engine
        = some (load_all_documents pdfR docxR (applyOps ops s).dataDir) ∧
      (endswith n ".txt" = true → endswith n ".pdf" = false →
        endswith n ".docx" = false →
        Document.mk c2 none
          ∈ load_all_documents pdfR docxR (applyOps ops s).dataDir) := by
  obtain ⟨c2, h2⟩ := applyOps_keeps_name ops s n c h
  refine ⟨c2, h2, rfl, fun ht hp hd => ?_⟩
  rw [load_all_documents_eq]
  exact txt_mem_specLoad pdfR docxR n c2 ht hp hd _ h2

/-- C10 witness: the statement at a concrete session, with a reset followed
by an upload of a different file, for the persisted file a.txt. -/
theorem rebuild_includes_persisted_files_witness :
    Entry.mk "a.txt" "x" ∈ sampleReady.dataDir ∧
    (∃ c2, Entry.mk "a.txt" c2
        ∈ (applyOps [SessionOp.reset, SessionOp.upload [sampleEntryC]]
            sampleReady).dataDir ∧
      (rebuildIndex sampleOracleReaders sampleOracleReaders
          (applyOps [SessionOp.reset, SessionOp.upload [sampleEntryC]]
            sampleReady)).query_engine
        = some (load_all_documents sampleOracleReaders sampleOracleReaders
            (applyOps [SessionOp.reset, SessionOp.upload [sampleEntryC]]
              sampleReady).dataDir) ∧
      (endswith "a.txt" ".txt" = true → endswith "a.txt" ".pdf" = false →
        endswith "a.txt" ".docx" = false →
        Document.mk c2 none
          ∈ load_all_documents sampleOracleReaders sampleOracleReaders
              (applyOps [SessionOp.reset, SessionOp.upload [sampleEntryC]]
                sampleReady).dataDir)) :=
  ⟨by decide,
    rebuild_includes_persisted_files sampleOracleReaders sampleOracleReaders
      [SessionOp.reset, SessionOp.upload [sampleEntryC]] sampleReady
      "a.txt" "x" (by decide)⟩

end DocBot
